import Mathlib

/-!
# Verification of `gdp_cal.py`

A shallow embedding of the tabular pipeline in `gdp_cal.py`:
column auto-detection (`detect_columns`), year filtering and pivoting
(`prepare_wide`), the masked 16-country mean and Portugal ratio
(`compute_portugal_vs_mean`), and the control flow of `main`.

GDP-per-capita values are modelled as exact rationals (`ℚ`); a pandas
`NaN`/`NA` cell is modelled as `none : Option ℚ`.
-/

/-- The fixed basket of 16 developed economies (source line 25). -/
def DEVELOPED_16 : List String :=
  ["GBR", "FRA", "DEU", "DNK", "BEL", "NLD", "ESP", "ITA", "PRT", "SWE",
   "AUT", "USA", "CAN", "AUS", "NZL", "JPN"]

/-- Portugal's country code (source line 26). -/
def PORTUGAL : String := "PRT"

/-- One row of the raw (long-format) table: `(year, entity, code, gdp value)`.
A `NaN` value cell in the downloaded CSV is `none`. -/
structure RawRow where
  year : Int
  entity : String
  code : String
  gdp : Option ℚ
deriving DecidableEq, Repr

/-- `needle` occurs as a contiguous run inside `hay`. -/
def hasSubstring (hay needle : List Char) : Bool :=
  needle.isPrefixOf hay ||
    match hay with
    | [] => false
    | _ :: t => hasSubstring t needle

/-- `kw` occurs as a substring of the lowercased `c`
(Python `kw in c.lower()`). -/
def kwMatch (kw c : String) : Bool :=
  hasSubstring c.toLower.toList kw.toList

/-- Matches the `year` logical field (source line 38). -/
def isYearCol (c : String) : Bool := kwMatch "year" c

/-- Matches the `country/entity` logical field (source line 39). -/
def isCountryCol (c : String) : Bool := kwMatch "entity" c || kwMatch "country" c

/-- Matches the `code` logical field (source line 40). -/
def isCodeCol (c : String) : Bool := kwMatch "code" c

/-- Matches the `gdp` value logical field (source line 41). -/
def isValueCol (c : String) : Bool := kwMatch "gdp" c

/-- The error payload of `detect_columns`: the names of the unresolved
logical fields, and the full list of available column names
(the two pieces of data interpolated into the `ValueError` message,
source lines 44-46). -/
structure DetectError where
  missing : List String
  available : List String
deriving DecidableEq, Repr

/-- `detect_columns` (source lines 34-48): for each of the four logical
fields, the first column whose lowercased name contains the field's
keyword; raises listing the unresolved fields when any is unmatched. -/
def detect_columns (cols : List String) :
    Except DetectError (String × String × String × String) :=
  let year_col := cols.find? isYearCol
  let country_col := cols.find? isCountryCol
  let code_col := cols.find? isCodeCol
  let value_col := cols.find? isValueCol
  match year_col, country_col, code_col, value_col with
  | some y, some c, some k, some v => .ok (y, c, k, v)
  | _, _, _, _ =>
    .error
      { missing :=
          ([("year", year_col), ("country/entity", country_col),
            ("code", code_col), ("gdp", value_col)].filterMap
            (fun p => if p.2.isNone then some p.1 else none)),
        available := cols }

/-- The year-range filter of `prepare_wide` (source line 54):
`df[(df["year"] >= start_year) & (df["year"] <= end_year)]`. -/
def filter_by_year (rows : List RawRow) (start_year end_year : Int) :
    List RawRow :=
  rows.filter (fun r => decide (start_year ≤ r.year) && decide (r.year ≤ end_year))

/-- One cell of the pivot (source line 55,
`pivot_table(index="year", columns="code", values="gdp_per_capita",
aggfunc="first")`): the first row matching `(y, c)` that carries a
non-missing value; `none` when no such row exists. -/
def pivotCell (rows : List RawRow) (y : Int) (c : String) : Option ℚ :=
  rows.findSome? (fun r => if r.year == y && r.code == c then r.gdp else none)

/-- The wide table produced by the pivot: the ascending list of year labels,
the list of country-code column labels, and the cell contents. -/
structure WideTable where
  years : List Int
  cols : List String
  cell : Int → String → Option ℚ

/-- `prepare_wide` (source lines 50-56): filter to the inclusive year range,
then pivot to a year-by-code table. `pivot_table` with its default
`dropna=True` ignores rows whose value is `NaN`, so the year index is the
sorted list of distinct years of the value-bearing filtered rows (a year
all of whose values are missing gets no row), and likewise the column
labels are the distinct codes of the value-bearing filtered rows (a column
whose entries would all be `NaN` is dropped). `pivot_table` sorts the
column labels lexicographically, but the pipeline only ever tests
membership in them, so they are kept here in first-occurrence order. The
cell lookup may scan all filtered rows because `aggfunc="first"` takes the
first non-missing value either way. -/
def prepare_wide (rows : List RawRow) (start_year end_year : Int) : WideTable :=
  let f := filter_by_year rows start_year end_year
  let present := f.filter (fun r => r.gdp.isSome)
  { years := (present.map RawRow.year).dedup.insertionSort (· ≤ ·),
    cols := (present.map RawRow.code).dedup,
    cell := fun y c => pivotCell f y c }

/-- The non-missing values, at year `y`, of the basket codes that are
present as columns of `wide` — the row of
`wide[[c for c in developed_16 if c in wide.columns]]` with its `NaN`s
dropped (source lines 64-66). -/
def meanVals (wide : WideTable) (basket : List String) (y : Int) : List ℚ :=
  (basket.filter (fun c => wide.cols.contains c)).filterMap (fun c => wide.cell y c)

/-- `avg16["count_non_na"]` at year `y` (source line 65): how many of the
present basket columns have a non-missing value that year. -/
def count_non_na (wide : WideTable) (basket : List String) (y : Int) : Nat :=
  (meanVals wide basket y).length

/-- `avg16_mean` at year `y` before masking (source line 66): the arithmetic
mean over the non-missing basket values; pandas `mean(axis=1)` of an
all-missing row is `NaN`, modelled as `none`. -/
def avg16_mean (wide : WideTable) (basket : List String) (y : Int) : Option ℚ :=
  if (meanVals wide basket y).length = 0 then none
  else some ((meanVals wide basket y).sum / ((meanVals wide basket y).length : ℚ))

/-- The masked mean (source line 69): `avg16_mean[avg16["count_non_na"] < 12]
= pd.NA` — missing whenever fewer than 12 of the basket columns have a
value that year. -/
def masked_mean (wide : WideTable) (basket : List String) (y : Int) : Option ℚ :=
  if count_non_na wide basket y < 12 then none
  else avg16_mean wide basket y

/-- Portugal's series at year `y` (source line 71): the `portugal_code`
column when present, otherwise an all-`NaN` series. -/
def prtSeries (wide : WideTable) (portugal_code : String) (y : Int) : Option ℚ :=
  if wide.cols.contains portugal_code then wide.cell y portugal_code else none

/-- A cell of the ratio column. Float division can produce, besides a
finite value, `NaN` — which pandas treats as missing, `na` here — and the
signed infinities. -/
inductive RatioEntry where
  | na : RatioEntry
  | posInf : RatioEntry
  | negInf : RatioEntry
  | fin : ℚ → RatioEntry
deriving DecidableEq, Repr

/-- The percentage ratio at year `y` (source line 72):
`(prt / avg16_mean) * 100` in float arithmetic. A missing operand
propagates to a missing result; a present 0 over a present mean of 0 is
`0.0/0.0 = NaN`, i.e. missing; a present nonzero value over a mean of 0 is
a signed infinity; otherwise the result is the finite value
`p / m * 100`. -/
def ratioAt (wide : WideTable) (basket : List String) (portugal_code : String)
    (y : Int) : RatioEntry :=
  match prtSeries wide portugal_code y, masked_mean wide basket y with
  | some p, some m =>
    if m = 0 then
      if p = 0 then .na
      else if 0 < p then .posInf else .negInf
    else .fin (p / m * 100)
  | _, _ => .na

/-- One row of the result table, with exactly the four output columns of
source lines 74-79, in order. -/
structure ResultRow where
  year : Int
  Portugal_gdp_pc : Option ℚ
  Media_16_gdp_pc : Option ℚ
  Portugal_pct_da_media_16 : RatioEntry
deriving DecidableEq, Repr

/-- `compute_portugal_vs_mean` (source lines 58-80): one result row per year
of the wide table's index, in index order. -/
def compute_portugal_vs_mean (wide : WideTable) (basket : List String)
    (portugal_code : String) : List ResultRow :=
  wide.years.map (fun y =>
    { year := y,
      Portugal_gdp_pc := prtSeries wide portugal_code y,
      Media_16_gdp_pc := masked_mean wide basket y,
      Portugal_pct_da_media_16 := ratioAt wide basket portugal_code y })

/-- A diagnostic line printed to standard error by `main`. -/
inductive Diag where
  | detectErr : DetectError → Diag
  | plotErr : Diag
deriving DecidableEq

/-- The observable outcome of one run of `main`. -/
structure RunOutcome where
  exitCode : Nat
  csvWritten : Bool
  stderr : List Diag
deriving DecidableEq

/-- The control flow of `main` (source lines 111-128): on a
column-detection `ValueError` print the diagnostic to stderr and
`sys.exit(1)`; otherwise write the CSV, then attempt the plot, catching
any plotting exception (abstracted by `plotFails`) as a non-fatal stderr
diagnostic. The download step and the aggregator's non-fatal
missing-codes warning are outside this model. -/
def run_main (cols : List String) (plotFails : Bool) : RunOutcome :=
  match detect_columns cols with
  | .error e => { exitCode := 1, csvWritten := false, stderr := [Diag.detectErr e] }
  | .ok _ =>
    { exitCode := 0, csvWritten := true,
      stderr := if plotFails then [Diag.plotErr] else [] }

/-- Spec-side reading of "the non-missing values among the 16 basket-code
columns for that year": a basket code that is not a column of the wide
table at all contributes no value, exactly like a missing cell. -/
def basketVals (wide : WideTable) (y : Int) : List ℚ :=
  DEVELOPED_16.filterMap
    (fun c => if wide.cols.contains c then wide.cell y c else none)

/-- Spec-side reading of the detection failure payload: the logical fields,
in the fixed order year, country/entity, code, gdp, that have no matching
column at all. -/
def unresolvedFields (cols : List String) : List String :=
  (if cols.any isYearCol then [] else ["year"]) ++
    (if cols.any isCountryCol then [] else ["country/entity"]) ++
    (if cols.any isCodeCol then [] else ["code"]) ++
    (if cols.any isValueCol then [] else ["gdp"])

/-- `x` is the first element of `cols`, in column order, satisfying `p`. -/
def firstSuch (cols : List String) (p : String → Bool) (x : String) : Prop :=
  ∃ l₁ l₂, cols = l₁ ++ x :: l₂ ∧ p x = true ∧ ∀ z ∈ l₁, p z = false

/-- The raw rows of the spec's end-to-end scenario: year 1950 only,
Portugal at 80, the other 15 basket codes at 100. -/
def c3rows : List RawRow :=
  [⟨1950, "Portugal", "PRT", some 80⟩, ⟨1950, "UK", "GBR", some 100⟩,
   ⟨1950, "France", "FRA", some 100⟩, ⟨1950, "Germany", "DEU", some 100⟩,
   ⟨1950, "Denmark", "DNK", some 100⟩, ⟨1950, "Belgium", "BEL", some 100⟩,
   ⟨1950, "Netherlands", "NLD", some 100⟩, ⟨1950, "Spain", "ESP", some 100⟩,
   ⟨1950, "Italy", "ITA", some 100⟩, ⟨1950, "Sweden", "SWE", some 100⟩,
   ⟨1950, "Austria", "AUT", some 100⟩, ⟨1950, "USA", "USA", some 100⟩,
   ⟨1950, "Canada", "CAN", some 100⟩, ⟨1950, "Australia", "AUS", some 100⟩,
   ⟨1950, "New Zealand", "NZL", some 100⟩, ⟨1950, "Japan", "JPN", some 100⟩]

/-- A wide table with every basket column present and every cell 10. -/
def wideAll10 : WideTable :=
  { years := [2000], cols := DEVELOPED_16, cell := fun _ _ => some 10 }

/-- A wide table whose masked 16-country mean at any year is exactly 100
while Portugal's value is 50: fourteen basket columns at 103, Japan at 108,
Portugal at 50 (sum 1600 over 16 columns). -/
def wideRatio50 : WideTable :=
  { years := [2000], cols := DEVELOPED_16,
    cell := fun _ c =>
      if c == "PRT" then some 50 else if c == "JPN" then some 108 else some 103 }

/-- A wide table without a Portugal column. -/
def wideNoPrt : WideTable :=
  { years := [1950], cols := ["FRA"], cell := fun _ _ => some 3 }

/-- A wide table with every basket column present and every cell 0, so
Portugal's value and the masked mean are both present and both zero. -/
def wideZero : WideTable :=
  { years := [2000], cols := DEVELOPED_16, cell := fun _ _ => some 0 }

/-- Raw rows exercising the year filter at and beyond both bounds. -/
def yearFilterRows : List RawRow :=
  [⟨1949, "Portugal", "PRT", some 1⟩, ⟨1950, "Portugal", "PRT", some 2⟩,
   ⟨1955, "Portugal", "PRT", some 3⟩, ⟨1960, "Portugal", "PRT", some 4⟩,
   ⟨1961, "Portugal", "PRT", some 5⟩]

/-! ## General lemmas about the list operations used by the pipeline -/

theorem filterMap_filter_eq {α β : Type*} (p : α → Bool) (f : α → Option β) :
    ∀ l : List α,
      (l.filter p).filterMap f = l.filterMap (fun a => if p a then f a else none)
  | [] => rfl
  | a :: t => by
    by_cases h : p a <;>
      simp [List.filter_cons, h, List.filterMap_cons, filterMap_filter_eq p f t]

theorem findSome?_append_of_forall_none {α β : Type*} (f : α → Option β) :
    ∀ (l₁ l₂ : List α), (∀ x ∈ l₁, f x = none) →
      (l₁ ++ l₂).findSome? f = l₂.findSome? f
  | [], _, _ => rfl
  | a :: t, l₂, h => by
    have ha : f a = none := h a (List.mem_cons_self a t)
    have ht : ∀ x ∈ t, f x = none := fun x hx => h x (List.mem_cons_of_mem a hx)
    simp [List.findSome?_cons, ha, findSome?_append_of_forall_none f t l₂ ht]

theorem any_eq_isSome_find? {α : Type*} (p : α → Bool) (l : List α) :
    l.any p = (l.find? p).isSome := by
  rcases h : l.find? p with _ | x
  · have hall : ∀ x ∈ l, ¬p x = true := List.find?_eq_none.mp h
    simp only [Option.isSome_none]
    rw [List.any_eq_false]
    exact hall
  · have : ∃ x ∈ l, p x = true := ⟨x, List.mem_of_find?_eq_some h, List.find?_some h⟩
    simp [List.any_eq_true.mpr this]

theorem find?_eq_some_iff_firstSuch (p : String → Bool) :
    ∀ (l : List String) (x : String), l.find? p = some x ↔ firstSuch l p x := by
  intro l
  induction l with
  | nil =>
    intro x
    constructor
    · intro h
      simp [List.find?] at h
    · rintro ⟨l₁, l₂, h, -, -⟩
      exact absurd h (List.append_ne_nil_of_right_ne_nil l₁ (List.cons_ne_nil x l₂)).symm
  | cons a t ih =>
    intro x
    rcases h : p a with _ | _
    · rw [List.find?_cons, h]
      rw [ih x]
      constructor
      · rintro ⟨l₁, l₂, heq, hx, hall⟩
        exact ⟨a :: l₁, l₂, by rw [heq, List.cons_append], hx, by
          intro z hz
          rcases List.mem_cons.mp hz with hz | hz
          · rwa [hz]
          · exact hall z hz⟩
      · rintro ⟨l₁, l₂, heq, hx, hall⟩
        rcases l₁ with _ | ⟨b, l₁⟩
        · rw [List.nil_append] at heq
          have hxa : x = a := (List.cons.inj heq).1.symm
          rw [hxa] at hx
          rw [hx] at h
          exact absurd h (by simp)
        · rw [List.cons_append] at heq
          obtain ⟨hba, hteq⟩ := List.cons.inj heq
          exact ⟨l₁, l₂, hteq, hx, fun z hz => hall z (List.mem_cons_of_mem b hz)⟩
    · rw [List.find?_cons, h]
      constructor
      · intro hx
        have hxa : x = a := (Option.some.inj hx).symm
        exact ⟨[], t, by rw [hxa, List.nil_append], by rw [hxa]; exact h, by simp⟩
      · rintro ⟨l₁, l₂, heq, hx, hall⟩
        rcases l₁ with _ | ⟨b, l₁⟩
        · rw [List.nil_append] at heq
          rw [(List.cons.inj heq).1]
        · rw [List.cons_append] at heq
          have hba : a = b := (List.cons.inj heq).1
          have := hall b (List.mem_cons_self b l₁)
          rw [← hba, h] at this
          exact absurd this (by simp)

/-! ## Claims about the pipeline -/

/-- **C5.** The year filter of `prepare_wide` is inclusive on both bounds:
for all integer bounds `start_year ≤ end_year`, a row is retained if and
only if `start_year ≤ year ≤ end_year`. -/
theorem year_filter_inclusive (rows : List RawRow) (start_year end_year : Int)
    (hse : start_year ≤ end_year) (r : RawRow) :
    r ∈ filter_by_year rows start_year end_year ↔
      (r ∈ rows ∧ start_year ≤ r.year ∧ r.year ≤ end_year) := by
  unfold filter_by_year
  rw [List.mem_filter]
  simp [and_assoc]

/-- Witness for **C5**: the rows at the bounds 1950 and 1960 are retained,
the rows one year outside either bound are not. -/
theorem year_filter_inclusive_witness :
    (⟨1950, "Portugal", "PRT", some 2⟩ : RawRow) ∈ filter_by_year yearFilterRows 1950 1960 ∧
    (⟨1960, "Portugal", "PRT", some 4⟩ : RawRow) ∈ filter_by_year yearFilterRows 1950 1960 ∧
    (⟨1949, "Portugal", "PRT", some 1⟩ : RawRow) ∉ filter_by_year yearFilterRows 1950 1960 ∧
    (⟨1961, "Portugal", "PRT", some 5⟩ : RawRow) ∉ filter_by_year yearFilterRows 1950 1960 :=
  ⟨(year_filter_inclusive yearFilterRows 1950 1960 (by decide) _).mpr (by decide),
   (year_filter_inclusive yearFilterRows 1950 1960 (by decide) _).mpr (by decide),
   fun h => by
     have := (year_filter_inclusive yearFilterRows 1950 1960 (by decide) _).mp h
     exact absurd this.2.1 (by decide),
   fun h => by
     have := (year_filter_inclusive yearFilterRows 1950 1960 (by decide) _).mp h
     exact absurd this.2.2 (by decide)⟩

/-- **C6.** Pivoting keeps the first-encountered value for a `(year, code)`
pair: if `r`, carrying value `v` and lying in the year range, is the first
row of the raw table for the pair `(r.year, r.code)`, then the pivoted cell
for that pair is `v`, whatever rows (including duplicates of the pair)
follow. -/
theorem pivot_first_value_wins (rows₁ rows₂ : List RawRow) (r : RawRow)
    (start_year end_year : Int) (v : ℚ)
    (hv : r.gdp = some v) (hs : start_year ≤ r.year) (he : r.year ≤ end_year)
    (hfirst : ∀ r' ∈ rows₁, ¬(r'.year = r.year ∧ r'.code = r.code)) :
    (prepare_wide (rows₁ ++ r :: rows₂) start_year end_year).cell r.year r.code
      = some v := by
  have hfilter : filter_by_year (rows₁ ++ r :: rows₂) start_year end_year
      = filter_by_year rows₁ start_year end_year
        ++ r :: filter_by_year rows₂ start_year end_year := by
    unfold filter_by_year
    rw [List.filter_append, List.filter_cons]
    simp [hs, he]
  show pivotCell (filter_by_year (rows₁ ++ r :: rows₂) start_year end_year)
    r.year r.code = some v
  rw [hfilter]
  unfold pivotCell
  rw [findSome?_append_of_forall_none _ _ _ ?side]
  case side =>
    intro x hx
    have hx' : x ∈ rows₁ := by
      unfold filter_by_year at hx
      exact (List.mem_filter.mp hx).1
    have hxr : ¬(x.year = r.year ∧ x.code = r.code) := hfirst x hx'
    have : (x.year == r.year && x.code == r.code) = false := by
      rcases hb : x.year == r.year with _ | _
      · simp
      · rcases hc : x.code == r.code with _ | _
        · simp
        · exact absurd ⟨eq_of_beq hb, eq_of_beq hc⟩ hxr
    simp [this]
  rw [List.findSome?_cons]
  simp [hv]

/-- Witness for **C6**: with an earlier row for a different code and a later
duplicate `(1950, "PRT")` row carrying 9, the pivoted cell keeps the first
value 7. -/
theorem pivot_first_value_wins_witness :
    (prepare_wide
      [⟨1950, "x", "GBR", some 5⟩, ⟨1950, "a", "PRT", some 7⟩,
       ⟨1950, "b", "PRT", some 9⟩] 1950 1950).cell 1950 "PRT" = some 7 :=
  pivot_first_value_wins [⟨1950, "x", "GBR", some 5⟩] [⟨1950, "b", "PRT", some 9⟩]
    ⟨1950, "a", "PRT", some 7⟩ 1950 1950 7 (by decide) (by decide) (by decide)
    (by decide)

/-- **C7.** When Portugal's code is not among the wide table's columns, the
aggregator treats Portugal's series as all-missing: for every year both
Portugal's value and the ratio are missing (and the aggregator is a total
function, so it does not fail). -/
theorem missing_portugal_all_missing (wide : WideTable) (y : Int)
    (h : wide.cols.contains PORTUGAL = false) :
    prtSeries wide PORTUGAL y = none ∧
      ratioAt wide DEVELOPED_16 PORTUGAL y = RatioEntry.na := by
  have hp : prtSeries wide PORTUGAL y = none := by
    unfold prtSeries
    rw [if_neg (by rw [h]; exact Bool.false_ne_true)]
  refine ⟨hp, ?_⟩
  unfold ratioAt
  rw [hp]

/-- Witness for **C7**: a wide table with only an `FRA` column yields a
missing Portugal value and a missing ratio. -/
theorem missing_portugal_all_missing_witness :
    prtSeries wideNoPrt PORTUGAL 1950 = none ∧
      ratioAt wideNoPrt DEVELOPED_16 PORTUGAL 1950 = RatioEntry.na :=
  missing_portugal_all_missing wideNoPrt 1950 (by decide)

/-- **C1.** For every wide table and every year in its index, the masked
16-country mean equals the arithmetic mean of the non-missing values among
the 16 basket-code columns for that year, and is missing exactly when
strictly fewer than 12 of those 16 columns have a non-missing value. -/
theorem masked_mean_spec (wide : WideTable) (y : Int) (hy : y ∈ wide.years) :
    masked_mean wide DEVELOPED_16 y =
      if (basketVals wide y).length < 12 then none
      else some ((basketVals wide y).sum / ((basketVals wide y).length : ℚ)) := by
  have hv : meanVals wide DEVELOPED_16 y = basketVals wide y := by
    unfold meanVals basketVals
    exact filterMap_filter_eq _ _ DEVELOPED_16
  unfold masked_mean count_non_na avg16_mean
  rw [hv]
  by_cases h : (basketVals wide y).length < 12
  · simp [h]
  · have h0 : ¬(basketVals wide y).length = 0 := by omega
    simp [h, h0]

/-- Witness for **C1**: on a table where all 16 basket columns hold 10 at
year 2000, the masked mean is 10 (16 of 16 present, so not masked). -/
theorem masked_mean_spec_witness :
    (2000 : Int) ∈ wideAll10.years ∧
      masked_mean wideAll10 DEVELOPED_16 2000 = some 10 := by
  refine ⟨by decide, ?_⟩
  rw [masked_mean_spec wideAll10 2000 (by decide)]
  rw [show basketVals wideAll10 2000
      = [10, 10, 10, 10, 10, 10, 10, 10, 10, 10, 10, 10, 10, 10, 10, 10] from by decide]
  norm_num

/-- **C2, counterexample.** The ratio is NOT defined whenever both operands
are present: on a table whose sixteen basket cells are all 0, Portugal's
value and the masked mean are both present (both 0), yet the ratio is
`0.0/0.0 = NaN`, i.e. missing. -/
theorem ratio_missing_counterexample :
    prtSeries wideZero PORTUGAL 2000 = some 0 ∧
      masked_mean wideZero DEVELOPED_16 2000 = some 0 ∧
      ratioAt wideZero DEVELOPED_16 PORTUGAL 2000 = RatioEntry.na := by
  have hp : prtSeries wideZero PORTUGAL 2000 = some 0 := by decide
  have hm : masked_mean wideZero DEVELOPED_16 2000 = some 0 := by
    have hv : meanVals wideZero DEVELOPED_16 2000
        = [0, 0, 0, 0, 0, 0, 0, 0, 0, 0, 0, 0, 0, 0, 0, 0] := by decide
    unfold masked_mean count_non_na avg16_mean
    rw [hv]
    norm_num
  refine ⟨hp, hm, ?_⟩
  unfold ratioAt
  rw [hp, hm]
  norm_num

/-- **C2, amended.** The percentage ratio at a year is missing exactly when
Portugal's value or the masked mean is missing at that year, or both are
present and zero (float `0.0/0.0` is `NaN`) — never zero or a silent
default; and with Portugal at 50 and a masked mean of 100 the ratio is
exactly 50. -/
theorem ratio_missing_iff_amended (wide : WideTable) (y : Int) :
    (ratioAt wide DEVELOPED_16 PORTUGAL y = RatioEntry.na ↔
      (prtSeries wide PORTUGAL y = none ∨ masked_mean wide DEVELOPED_16 y = none ∨
        (prtSeries wide PORTUGAL y = some 0 ∧
          masked_mean wide DEVELOPED_16 y = some 0)))
    ∧ (prtSeries wide PORTUGAL y = some 50 →
        masked_mean wide DEVELOPED_16 y = some 100 →
        ratioAt wide DEVELOPED_16 PORTUGAL y = RatioEntry.fin 50) := by
  constructor
  · unfold ratioAt
    rcases hp : prtSeries wide PORTUGAL y with _ | p <;>
      rcases hm : masked_mean wide DEVELOPED_16 y with _ | m <;> simp
    by_cases hm0 : m = 0
    · by_cases hp0 : p = 0
      · simp [hm0, hp0]
      · rcases lt_trichotomy 0 p with hpp | hpp | hpp
        · simp [hm0, hp0, hpp]
        · exact absurd hpp.symm hp0
        · simp [hm0, hp0, not_lt_of_gt hpp]
    · simp [hm0]
  · intro hp hm
    unfold ratioAt
    rw [hp, hm]
    norm_num

/-- Witness for **C2 (amended)**: a table with Portugal at 50 and the other
basket values summing to 1550 (masked mean exactly 100) gives a ratio of
exactly 50. -/
theorem ratio_missing_iff_amended_witness :
    ratioAt wideRatio50 DEVELOPED_16 PORTUGAL 2000 = RatioEntry.fin 50 := by
  have hm : masked_mean wideRatio50 DEVELOPED_16 2000 = some 100 := by
    have hv : meanVals wideRatio50 DEVELOPED_16 2000
        = [103, 103, 103, 103, 103, 103, 103, 103, 50, 103, 103, 103, 103, 103,
           103, 108] := by decide
    unfold masked_mean count_non_na avg16_mean
    rw [hv]
    norm_num
  exact (ratio_missing_iff_amended wideRatio50 2000).2 (by decide) hm

/-- **C10.** Portugal's code `PRT` is itself one of the 16 basket codes, so
whenever Portugal has a value at a year of a wide table, that value is
among the values averaged into the 16-country mean and the coverage count
compared against the threshold 12 is at least 1. -/
theorem portugal_in_basket :
    PORTUGAL ∈ DEVELOPED_16 ∧
      ∀ (wide : WideTable) (y : Int) (v : ℚ),
        wide.cols.contains PORTUGAL = true → wide.cell y PORTUGAL = some v →
        v ∈ meanVals wide DEVELOPED_16 y ∧ 1 ≤ count_non_na wide DEVELOPED_16 y := by
  refine ⟨by decide, ?_⟩
  intro wide y v hc hv
  have hmem : PORTUGAL ∈ DEVELOPED_16.filter (fun c => wide.cols.contains c) :=
    List.mem_filter.mpr ⟨by decide, hc⟩
  have h1 : v ∈ meanVals wide DEVELOPED_16 y := by
    unfold meanVals
    exact List.mem_filterMap.mpr ⟨PORTUGAL, hmem, hv⟩
  refine ⟨h1, ?_⟩
  unfold count_non_na
  have := List.length_pos.mpr (List.ne_nil_of_mem h1)
  omega

/-- Witness for **C10**: on the all-10 table, Portugal's value 10
contributes to the mean's values and the coverage count is positive. -/
theorem portugal_in_basket_witness :
    (10 : ℚ) ∈ meanVals wideAll10 DEVELOPED_16 2000 ∧
      1 ≤ count_non_na wideAll10 DEVELOPED_16 2000 :=
  portugal_in_basket.2 wideAll10 2000 10 (by decide) (by decide)

/-- **C4.** Column detection selects, for each of the four logical fields,
the first column in column order whose lowercased name contains the field's
keyword, and it errors — listing exactly the unresolved logical fields and
the full list of available column names — if and only if at least one of
the four fields has no matching column. -/
theorem detect_columns_spec (cols : List String) :
    (∀ y c k v, detect_columns cols = .ok (y, c, k, v) →
        firstSuch cols isYearCol y ∧ firstSuch cols isCountryCol c ∧
        firstSuch cols isCodeCol k ∧ firstSuch cols isValueCol v)
    ∧ (∀ err, detect_columns cols = .error err →
        err.available = cols ∧ err.missing = unresolvedFields cols ∧ err.missing ≠ [])
    ∧ ((∃ err, detect_columns cols = .error err) ↔
        (¬(∃ x ∈ cols, isYearCol x = true) ∨ ¬(∃ x ∈ cols, isCountryCol x = true) ∨
         ¬(∃ x ∈ cols, isCodeCol x = true) ∨ ¬(∃ x ∈ cols, isValueCol x = true))) := by
  rcases hY : cols.find? isYearCol with _ | y₀ <;>
    rcases hC : cols.find? isCountryCol with _ | c₀ <;>
      rcases hK : cols.find? isCodeCol with _ | k₀ <;>
        rcases hV : cols.find? isValueCol with _ | v₀ <;>
          simp [detect_columns, unresolvedFields, any_eq_isSome_find?, hY, hC, hK, hV,
            ← find?_eq_some_iff_firstSuch, ← List.find?_isSome]

/-- Witness for **C4**: on columns `["Year", "Entity", "Code", "Code 2",
"GDP per capita"]` detection succeeds and the `code` field resolves to the
earlier of the two `code`-containing columns. -/
theorem detect_columns_spec_witness :
    firstSuch ["Year", "Entity", "Code", "Code 2", "GDP per capita"] isCodeCol
      "Code" :=
  ((detect_columns_spec ["Year", "Entity", "Code", "Code 2", "GDP per capita"]).1
    "Year" "Entity" "Code" "GDP per capita" (by with_unfolding_all rfl)).2.2.1

/-- **C9.** For every raw table and bounds, the aggregator's output over the
prepared wide table has exactly one row per year of the wide index — a year
appears in the output exactly when some raw row carries it within the
inclusive bounds with a non-missing value (`pivot_table`'s default
`dropna=True` drops years whose values are all missing) — in strictly
ascending year order, and each row consists exactly of the year, Portugal's
value, the masked mean, and the ratio.  -/
theorem result_table_shape (rows : List RawRow) (start_year end_year : Int) :
    ((compute_portugal_vs_mean (prepare_wide rows start_year end_year) DEVELOPED_16
        PORTUGAL).map ResultRow.year).Sorted (· < ·)
    ∧ (∀ y : Int,
        y ∈ (compute_portugal_vs_mean (prepare_wide rows start_year end_year)
              DEVELOPED_16 PORTUGAL).map ResultRow.year ↔
          ∃ r ∈ rows, r.year = y ∧ start_year ≤ y ∧ y ≤ end_year ∧
            r.gdp.isSome = true)
    ∧ ∀ row ∈ compute_portugal_vs_mean (prepare_wide rows start_year end_year)
          DEVELOPED_16 PORTUGAL,
        row = { year := row.year,
                Portugal_gdp_pc :=
                  prtSeries (prepare_wide rows start_year end_year) PORTUGAL row.year,
                Media_16_gdp_pc :=
                  masked_mean (prepare_wide rows start_year end_year) DEVELOPED_16 row.year,
                Portugal_pct_da_media_16 :=
                  ratioAt (prepare_wide rows start_year end_year) DEVELOPED_16 PORTUGAL
                    row.year } := by
  have hmap : (compute_portugal_vs_mean (prepare_wide rows start_year end_year)
      DEVELOPED_16 PORTUGAL).map ResultRow.year
      = (prepare_wide rows start_year end_year).years := by
    unfold compute_portugal_vs_mean
    rw [List.map_map]
    exact List.map_id _
  have hw : (prepare_wide rows start_year end_year).years
      = (((filter_by_year rows start_year end_year).filter
            (fun r => r.gdp.isSome)).map RawRow.year).dedup.insertionSort
          (· ≤ ·) := rfl
  have hsorted : ((prepare_wide rows start_year end_year).years).Sorted (· < ·) := by
    rw [hw]
    have hle := List.sorted_insertionSort (α := Int) (· ≤ ·)
      (((filter_by_year rows start_year end_year).filter
          (fun r => r.gdp.isSome)).map RawRow.year).dedup
    have hnd : ((((filter_by_year rows start_year end_year).filter
        (fun r => r.gdp.isSome)).map RawRow.year).dedup.insertionSort (· ≤ ·)).Nodup :=
      ((List.perm_insertionSort (· ≤ ·) _).nodup_iff).mpr (List.nodup_dedup _)
    exact (hle.and hnd).imp (fun h => lt_of_le_of_ne h.1 h.2)
  have hmem : ∀ y : Int, y ∈ (prepare_wide rows start_year end_year).years ↔
      ∃ r ∈ rows, r.year = y ∧ start_year ≤ y ∧ y ≤ end_year ∧
        r.gdp.isSome = true := by
    intro y
    rw [hw, List.Perm.mem_iff (List.perm_insertionSort _ _), List.mem_dedup,
      List.mem_map]
    constructor
    · rintro ⟨r, hr, rfl⟩
      rw [List.mem_filter] at hr
      obtain ⟨hr1, hsome⟩ := hr
      unfold filter_by_year at hr1
      rw [List.mem_filter] at hr1
      obtain ⟨hrm, hcond⟩ := hr1
      simp only [Bool.and_eq_true, decide_eq_true_eq] at hcond
      exact ⟨r, hrm, rfl, hcond.1, hcond.2, hsome⟩
    · rintro ⟨r, hrm, rfl, h1, h2, h3⟩
      refine ⟨r, ?_, rfl⟩
      rw [List.mem_filter]
      refine ⟨?_, h3⟩
      unfold filter_by_year
      rw [List.mem_filter]
      exact ⟨hrm, by simp [h1, h2]⟩
  refine ⟨by rw [hmap]; exact hsorted, fun y => by rw [hmap]; exact hmem y, ?_⟩
  intro row hrow
  unfold compute_portugal_vs_mean at hrow
  rw [List.mem_map] at hrow
  obtain ⟨y, hy, rfl⟩ := hrow
  rfl

/-- Witness for **C9**: on a concrete five-row table filtered to 1950-1960
the output years are strictly ascending and 1955 appears. -/
theorem result_table_shape_witness :
    ((compute_portugal_vs_mean (prepare_wide yearFilterRows 1950 1960) DEVELOPED_16
        PORTUGAL).map ResultRow.year).Sorted (· < ·) ∧
      (1955 : Int) ∈ (compute_portugal_vs_mean (prepare_wide yearFilterRows 1950 1960)
        DEVELOPED_16 PORTUGAL).map ResultRow.year :=
  ⟨(result_table_shape yearFilterRows 1950 1960).1,
   ((result_table_shape yearFilterRows 1950 1960).2.1 1955).mpr
     ⟨⟨1955, "Portugal", "PRT", some 3⟩, by decide, rfl, by decide, by decide,
       by decide⟩⟩

/-- On the end-to-end scenario input, the masked 16-country mean at 1950 is
1580/16 = 395/4 = 98.75, because Portugal's own 80 is one of the 16 basket
values averaged. -/
theorem c3_masked_mean :
    masked_mean (prepare_wide c3rows 1950 1950) DEVELOPED_16 1950
      = some (395 / 4) := by
  have hv : meanVals (prepare_wide c3rows 1950 1950) DEVELOPED_16 1950
      = [100, 100, 100, 100, 100, 100, 100, 100, 80, 100, 100, 100, 100, 100,
         100, 100] := by decide
  unfold masked_mean count_non_na avg16_mean
  rw [hv]
  norm_num

/-- On the end-to-end scenario input, Portugal's 1950 value is 80. -/
theorem c3_prt :
    prtSeries (prepare_wide c3rows 1950 1950) PORTUGAL 1950 = some 80 := by
  decide

/-- On the end-to-end scenario input, the wide table's index is `[1950]`. -/
theorem c3_years : (prepare_wide c3rows 1950 1950).years = [1950] := by
  decide

/-- On the end-to-end scenario input, the ratio at 1950 is
80 / (395/4) × 100 = 6400/79 ≈ 81.01. -/
theorem c3_ratio :
    ratioAt (prepare_wide c3rows 1950 1950) DEVELOPED_16 PORTUGAL 1950
      = RatioEntry.fin (6400 / 79) := by
  unfold ratioAt
  rw [c3_prt, c3_masked_mean]
  norm_num

/-- **C3, counterexample.** The pipeline on the spec's end-to-end scenario
does NOT output mean 100 and ratio 80: since `PRT` is itself in the basket,
the mean is 98.75, not 100. -/
theorem end_to_end_scenario_counterexample :
    compute_portugal_vs_mean (prepare_wide c3rows 1950 1950) DEVELOPED_16 PORTUGAL ≠
      [{ year := 1950, Portugal_gdp_pc := some 80, Media_16_gdp_pc := some 100,
         Portugal_pct_da_media_16 := RatioEntry.fin 80 }] := by
  intro h
  have h0 : masked_mean (prepare_wide c3rows 1950 1950) DEVELOPED_16 1950
      = some 100 := by
    have hcol := congrArg (fun l => l.map ResultRow.Media_16_gdp_pc) h
    unfold compute_portugal_vs_mean at hcol
    rw [c3_years] at hcol
    simpa using hcol
  rw [c3_masked_mean] at h0
  norm_num at h0

/-- **C3, amended.** For the end-to-end scenario input (year 1950 only,
Portugal 80, the 15 other basket codes 100 each, bounds 1950-1950) the
pipeline outputs a single row with year 1950, Portugal value 80, masked
mean 395/4 = 98.75 (Portugal's own value is among the 16 averaged), and
ratio 6400/79 ≈ 81.01. -/
theorem end_to_end_scenario_amended :
    compute_portugal_vs_mean (prepare_wide c3rows 1950 1950) DEVELOPED_16 PORTUGAL =
      [{ year := 1950, Portugal_gdp_pc := some 80, Media_16_gdp_pc := some (395 / 4),
         Portugal_pct_da_media_16 := RatioEntry.fin (6400 / 79) }] := by
  unfold compute_portugal_vs_mean
  rw [c3_years]
  simp [c3_prt, c3_masked_mean, c3_ratio]

/-- **C8.** `main` exits with status 1 — after emitting the missing-field
diagnostic to standard error, without writing the CSV — exactly on a
column-detection failure; when detection succeeds the run exits 0 with the
CSV written, a plotting failure being only a non-fatal stderr
diagnostic. -/
theorem main_exit_behavior (cols : List String) (plotFails : Bool) :
    (∀ err, detect_columns cols = .error err →
        run_main cols plotFails
          = { exitCode := 1, csvWritten := false, stderr := [Diag.detectErr err] })
    ∧ (∀ t, detect_columns cols = .ok t →
        (run_main cols plotFails).exitCode = 0 ∧
          (run_main cols plotFails).csvWritten = true ∧
          (run_main cols plotFails).stderr
            = if plotFails then [Diag.plotErr] else []) := by
  constructor
  · intro err herr
    unfold run_main
    rw [herr]
  · intro t ht
    unfold run_main
    rw [ht]
    exact ⟨rfl, rfl, rfl⟩

/-- Witness for **C8**: a single unmatchable column gives exit 1 with the
detection diagnostic and no CSV; a well-formed header with a failing plot
still gives exit 0. -/
theorem main_exit_behavior_witness :
    run_main ["Ano"] true
      = { exitCode := 1, csvWritten := false,
          stderr := [Diag.detectErr
            ⟨["year", "country/entity", "code", "gdp"], ["Ano"]⟩] } ∧
      (run_main ["Year", "Entity", "Code", "GDP per capita"] true).exitCode = 0 ∧
      (run_main ["Year", "Entity", "Code", "GDP per capita"] true).csvWritten = true :=
  ⟨(main_exit_behavior ["Ano"] true).1
      ⟨["year", "country/entity", "code", "gdp"], ["Ano"]⟩
      (by with_unfolding_all rfl),
   ((main_exit_behavior ["Year", "Entity", "Code", "GDP per capita"] true).2
      ("Year", "Entity", "Code", "GDP per capita") (by with_unfolding_all rfl)).1,
   ((main_exit_behavior ["Year", "Entity", "Code", "GDP per capita"] true).2
      ("Year", "Entity", "Code", "GDP per capita") (by with_unfolding_all rfl)).2.1⟩
